import Mathlib

/-!
Verification of the threading primitives module (`src/thread.hpp`) of the
repository: a thin C++ wrapper around SDL threading, consisting of four
types — `thread`, `mutex`, `lock` and `condition`.

The repository ships only the header `thread.hpp` (declarations together
with their documentation comments); the implementation translation unit is
not present under `src/`. The behavioural definitions below are therefore
modelled from the specification and from the header's own documentation
comments, as shallow state machines and pure functions. Facts that are
visible in the header itself (default arguments, `const` members, the
public member list of `mutex`) are taken directly from the header.
-/

namespace threading

/-! ## Opaque pointers and the thread model -/

/-- A C `void*` value: either the null pointer or some address. -/
inductive Ptr
  | null : Ptr
  | addr (a : Nat) : Ptr
deriving DecidableEq

/-- The shape of a thread start function, `int (*f)(void*)`. -/
abbrev ThreadFunc := Ptr → Int

/-- Modelled from the spec: error taxonomy case (a), `InvalidArgument` —
"thread constructed with a null function, rejected at construction".
The implementation translation unit for `thread::thread` is missing. -/
inductive ThreadCreationError
  | InvalidArgument : ThreadCreationError
deriving DecidableEq

/-- Modelled from the spec: the lifecycle state of a `thread` object,
"lifecycle state {Running, Killed, Joined}". -/
inductive ThreadState
  | Running : ThreadState
  | Killed : ThreadState
  | Joined : ThreadState
deriving DecidableEq

/-- Modelled from the spec: a `thread` object's observable state — its
lifecycle state, plus a counter of how many times the thread's function
has run to completion (used to state "completed exactly once"). -/
structure ThreadM where
  state : ThreadState
  completions : Nat
deriving DecidableEq

/-- Modelled from the spec: `thread::kill` — "Kill the thread. If the
thread has already been killed, this is a no-op." (header lines 38–40);
the implementation translation unit is missing. A running thread is
forcibly terminated (its function does not complete); a terminal thread
is left untouched. -/
def killT (t : ThreadM) : ThreadM :=
  match t.state with
  | .Running => { t with state := .Killed }
  | _ => t

/-- Modelled from the spec: `thread::join` — "blocks the calling thread
until the target's function returns. Idempotent: a no-op if already
terminal"; the implementation translation unit is missing. Joining a
running thread waits for its function to complete (recorded by
incrementing `completions`) and moves it to `Joined`; a terminal thread
is left untouched. -/
def joinT (t : ThreadM) : ThreadM :=
  match t.state with
  | .Running => { state := .Joined, completions := t.completions + 1 }
  | _ => t

/-- Modelled from the spec: the `thread` destructor — "Destroy the thread
object. This is done by waiting on the thread with the join() operation"
(header lines 33–36); the implementation translation unit is missing. -/
def threadDtor (t : ThreadM) : ThreadM := joinT t

/-- Modelled from the spec: whether the destructor blocks — "if the
thread is still Running, performs an implicit join — the destructor may
block indefinitely"; a join on an already-terminal thread does not
block. -/
def threadDtorBlocks (t : ThreadM) : Bool :=
  match t.state with
  | .Running => true
  | _ => false

/-- Modelled from the spec: a successfully started thread — "constructing
a Thread with a non-null function pointer and an opaque argument
immediately starts a new concurrently-executing unit of work calling that
function with that argument". -/
structure StartedThread where
  func : ThreadFunc
  arg : Ptr
  lifecycle : ThreadM

/-- Modelled from the spec: the `thread` constructor (header line 31,
`explicit thread(int (*f)(void*), void* data=NULL)` with `\pre f != NULL`);
the implementation translation unit is missing. A null function pointer
(`none`) is rejected at construction with `InvalidArgument` and no thread
is created; a non-null function starts a running thread that will call
that very function on the supplied data pointer, unmodified. -/
def thread_new (f : Option ThreadFunc) (data : Ptr) : Except ThreadCreationError StartedThread :=
  match f with
  | none => .error .InvalidArgument
  | some fn => .ok { func := fn, arg := data, lifecycle := { state := .Running, completions := 0 } }

/-- The default value of the constructor's `data` argument, taken from the
header: `void* data=NULL` (header line 31). -/
def thread_data_default : Ptr := .null

/-- The one-argument form of the constructor: the `data` argument takes
its declared default (header line 31). -/
def thread_new1 (f : Option ThreadFunc) : Except ThreadCreationError StartedThread :=
  thread_new f thread_data_default

/-- Modelled from the spec: the call the started unit of work performs —
"the callee receives exactly that pointer value with no copying or
validation". -/
def threadCall (st : StartedThread) : Int := st.func st.arg

/-- A concrete started thread used to exercise `thread_new`. -/
def st0 : StartedThread :=
  { func := fun _ => 0, arg := .null, lifecycle := { state := .Running, completions := 0 } }

/-- A concrete started thread used to exercise `thread_new1`. -/
def st1 : StartedThread :=
  { func := fun _ => 1, arg := .null, lifecycle := { state := .Running, completions := 0 } }

/-! ## The mutex and its scoped lock -/

/-- The state of one `mutex` object together with the `lock` objects
created on it. `m_` is the native handle held by the `SDL_mutex* const m_`
member (header line 72); `owner` is the thread currently holding the
binary mutex (`none` when unlocked); `activeLocks` lists the threads that
own a live `lock` object on this mutex (constructed, not yet destructed). -/
structure LockSys where
  m_ : Nat
  owner : Option Nat
  activeLocks : List Nat
deriving DecidableEq

/-- Modelled from the spec: `mutex::mutex` — "construction yields an
Unlocked mutex ready for use"; the implementation translation unit is
missing. A fresh mutex is unlocked and no lock object exists on it. -/
def mutex_new (h : Nat) : LockSys := { m_ := h, owner := none, activeLocks := [] }

/-- Modelled from the spec: the documented precondition of `mutex::~mutex`
— "destruction requires the mutex be Unlocked". -/
def mutex_dtor_pre (s : LockSys) : Prop := s.owner = none

instance (s : LockSys) : Decidable (mutex_dtor_pre s) := by
  unfold mutex_dtor_pre; infer_instance

/-- Modelled from the spec: `mutex::~mutex` — the destructor runs
unconditionally; the precondition is "documented … not enforced", so the
destructor performs no check and never fails, whatever the lock state. -/
def mutex_dtor (_s : LockSys) : Unit := ()

/-- The public member functions of class `mutex` as declared in the header
(lines 59–73): only the constructor and the destructor. Locking is
reserved to the friend classes `lock` and `condition`. -/
def mutexPublicMembers : List String := ["mutex", "~mutex"]

/-- Events on a mutex performed through `lock` objects. -/
inductive LEv
  | acquire (t : Nat) : LEv
  | destroy (t : Nat) : LEv
deriving DecidableEq

/-- Modelled from the spec: the transition relation of `lock` (header
lines 80–99); the implementation translation unit is missing.
`acquire t` is thread `t` returning from the `lock` constructor: it is
only enabled when the mutex is unlocked ("If the mutex is already locked,
the constructor will block until the mutex lock can be acquired"), and it
makes `t` the owner with a live lock object. `destroy t` is thread `t`
running the `lock` destructor, which releases the mutex and ends the
lock object's life. -/
inductive LStep : LockSys → LEv → LockSys → Prop
  | acquire (t : Nat) (s : LockSys) (h : s.owner = none) :
      LStep s (.acquire t) { m_ := s.m_, owner := some t, activeLocks := t :: s.activeLocks }
  | destroy (t : Nat) (s : LockSys) (h : s.owner = some t) :
      LStep s (.destroy t) { m_ := s.m_, owner := none, activeLocks := s.activeLocks.erase t }

/-- The states reachable from a freshly constructed mutex. -/
inductive LReach : LockSys → Prop
  | init (h : Nat) : LReach (mutex_new h)
  | step {s : LockSys} {e : LEv} {s' : LockSys} : LReach s → LStep s e s' → LReach s'

/-- The mutual-exclusion invariant: either the mutex is unlocked and no
lock object is live, or exactly one thread owns it through exactly one
live lock object. -/
def lockInv (s : LockSys) : Prop :=
  (s.owner = none ∧ s.activeLocks = []) ∨ (∃ t, s.owner = some t ∧ s.activeLocks = [t])

/-! ## The condition variable -/

/-- The state of one `condition` object together with the mutex it is
being used with. `cond_` is the native handle held by the
`SDL_cond* const cond_` member (header line 162); `owner` is the thread
currently holding the associated mutex; `waiters` lists the threads
suspended inside `wait` (they released the mutex on entry); `woken` lists
the threads that have been signalled and are contending to reacquire the
mutex before their `wait` call returns. -/
structure CondSys where
  cond_ : Nat
  owner : Option Nat
  waiters : List Nat
  woken : List Nat
deriving DecidableEq

/-- Modelled from the spec: `condition::notify_one` (header lines 142–147)
— "wakes exactly one waiter if any are waiting; a no-op if none are
waiting. Does not itself release any mutex"; the implementation
translation unit is missing. When a waiter exists, the first one moves
from `waiters` to `woken`; when none exists, the state is left entirely
unchanged (no signal is banked). -/
def notify_one (s : CondSys) : CondSys :=
  match s.waiters with
  | [] => s
  | t :: rest => { s with waiters := rest, woken := t :: s.woken }

/-- Modelled from the spec: `condition::notify_all` (header lines 149–156)
— wakes every current waiter; all of them move to `woken` and contend
for the mutex; the mutex itself is untouched. -/
def notify_all (s : CondSys) : CondSys :=
  { s with waiters := [], woken := s.waiters ++ s.woken }

/-- Observable events on a condition variable. `waitEnter t` is thread
`t` entering `condition::wait`; `waitRet t ok` is `t`'s `wait` call
returning the success flag `ok`; `notifyOne` is a `notify_one` call. -/
inductive CEv
  | acq (t : Nat) : CEv
  | rel (t : Nat) : CEv
  | waitEnter (t : Nat) : CEv
  | waitRet (t : Nat) (ok : Bool) : CEv
  | notifyOne : CEv
deriving DecidableEq

/-- Modelled from the spec: the transition relation of `condition::wait`
and `condition::notify_one` (header lines 107–163); the implementation
translation unit is missing. `waitEnter t` requires the caller to hold
the mutex ("\pre You have already aquired a lock on mutex m") and
atomically releases it while suspending `t`. `waitRet t true` is a
successful return: it requires `t` to have been signalled and reacquires
the mutex before returning. `waitRet t false` is a platform-error return:
the waiter leaves, and the mutex is not reacquired ("If wait returns
false … one cannot assume that he has a lock on the mutex anymore"). -/
inductive CStep : CondSys → CEv → CondSys → Prop
  | acq (t : Nat) (s : CondSys) (h : s.owner = none) :
      CStep s (.acq t) { s with owner := some t }
  | rel (t : Nat) (s : CondSys) (h : s.owner = some t) :
      CStep s (.rel t) { s with owner := none }
  | waitEnter (t : Nat) (s : CondSys) (h : s.owner = some t) :
      CStep s (.waitEnter t) { s with owner := none, waiters := t :: s.waiters }
  | notifyOne (s : CondSys) :
      CStep s .notifyOne (notify_one s)
  | waitRetOk (t : Nat) (s : CondSys) (h1 : t ∈ s.woken) (h2 : s.owner = none) :
      CStep s (.waitRet t true) { s with owner := some t, woken := s.woken.erase t }
  | waitRetErr (t : Nat) (s : CondSys) (h1 : t ∈ s.waiters ∨ t ∈ s.woken) :
      CStep s (.waitRet t false)
        { s with waiters := s.waiters.erase t, woken := s.woken.erase t }

/-- The result the underlying platform call `SDL_CondWaitTimeout` can
take: signalled in time, timed out (`SDL_MUTEX_TIMEDOUT`), or a genuine
error. -/
inductive SDLWaitOutcome
  | signaled : SDLWaitOutcome
  | timedOut : SDLWaitOutcome
  | sdlFailed : SDLWaitOutcome
deriving DecidableEq

/-- Modelled from the spec: the return value of `condition::wait_timeout`
(header lines 129–141) as a function of the underlying platform outcome —
"returns failure both on genuine error and on timeout expiry, without
distinguishing the two"; the header's own todo records that the
implementation "cannot check for timeout … cannot check if the error was
due to something malformed or if the time ran out". The mutex argument
and the millisecond timeout do not influence which boolean each outcome
maps to. -/
def wait_timeout (_m : LockSys) (_timeout : Nat) (r : SDLWaitOutcome) : Bool :=
  match r with
  | .signaled => true
  | .timedOut => false
  | .sdlFailed => false

/-! ## Helper lemmas -/

theorem lreach_lockInv {s : LockSys} (hs : LReach s) : lockInv s := by
  induction hs with
  | init h => exact Or.inl ⟨rfl, rfl⟩
  | step hr hst ih =>
    cases hst with
    | acquire t s h =>
      rcases ih with ⟨_, hl⟩ | ⟨u, hu, _⟩
      · exact Or.inr ⟨t, rfl, by simp [hl]⟩
      · rw [h] at hu; cases hu
    | destroy t s h =>
      rcases ih with ⟨ho, _⟩ | ⟨u, hu, hl⟩
      · rw [h] at ho; cases ho
      · rw [h] at hu
        injection hu with hu
        refine Or.inl ⟨rfl, ?_⟩
        simp [hl, hu]

theorem notify_one_frame (s : CondSys) :
    (notify_one s).owner = s.owner ∧ (notify_one s).cond_ = s.cond_ := by
  rcases s with ⟨c, o, w, wo⟩
  cases w <;> simp [notify_one]

/-! ## Claim theorems -/

/-- Claim C1: for every mutex, at most one `lock` object on it is active
(constructed and not yet destructed) at any instant; a `lock` constructor
on an already-locked mutex is blocked (its acquire transition is not
enabled) until the mutex is released; and destruction of a `lock`
unconditionally releases the mutex. -/
theorem lock_mutual_exclusion :
    (∀ s, LReach s → s.activeLocks.length ≤ 1)
    ∧ (∀ s u, s.owner = some u → ∀ t s', ¬ LStep s (.acquire t) s')
    ∧ (∀ s t s', LStep s (.destroy t) s' → s'.owner = none) := by
  refine ⟨?_, ?_, ?_⟩
  · intro s hs
    rcases lreach_lockInv hs with ⟨_, hl⟩ | ⟨t, _, hl⟩ <;> simp [hl]
  · intro s u hu t s' hstep
    cases hstep with
    | acquire t s h => rw [h] at hu; cases hu
  · intro s t s' hstep
    cases hstep with
    | destroy t s h => rfl

/-- Witness for C1 at concrete states: a fresh mutex has no active lock,
and with thread 1 holding the mutex, thread 2's acquire step is not
enabled. -/
theorem lock_mutual_exclusion_witness :
    (mutex_new 0).activeLocks.length ≤ 1
    ∧ ¬ LStep { m_ := 0, owner := some 1, activeLocks := [1] } (.acquire 2)
        { m_ := 0, owner := some 2, activeLocks := [2, 1] } :=
  ⟨lock_mutual_exclusion.1 (mutex_new 0) (LReach.init 0),
   lock_mutual_exclusion.2.1 { m_ := 0, owner := some 1, activeLocks := [1] } 1 rfl 2 _⟩

/-- Claim C2: `condition::wait` entered while holding the mutex atomically
releases it and suspends the caller; a successful return happens only for
a signalled waiter and reacquires the mutex before returning; and there
is an execution where `wait` returns `false` and the caller does not hold
the mutex. -/
theorem condition_wait_spec :
    (∀ s t s', CStep s (.waitEnter t) s' → s.owner = some t ∧ s'.owner = none ∧ t ∈ s'.waiters)
    ∧ (∀ s t s', CStep s (.waitRet t true) s' → t ∈ s.woken ∧ s'.owner = some t)
    ∧ (∃ s t s', CStep s (.waitRet t false) s' ∧ s'.owner ≠ some t) := by
  refine ⟨?_, ?_, ?_⟩
  · intro s t s' hstep
    cases hstep with
    | waitEnter t s h => exact ⟨h, rfl, List.mem_cons_self t s.waiters⟩
  · intro s t s' hstep
    cases hstep with
    | waitRetOk t s h1 h2 => exact ⟨h1, rfl⟩
  · refine ⟨⟨0, none, [7], []⟩, 7, _, CStep.waitRetErr 7 ⟨0, none, [7], []⟩ (Or.inl (by simp)), ?_⟩
    simp

/-- Witness for C2 at a concrete step: thread 3 holds the mutex, enters
`wait`, and is left suspended with the mutex released. -/
theorem condition_wait_spec_witness :
    (⟨0, some 3, [], []⟩ : CondSys).owner = some 3
    ∧ (⟨0, none, [3], []⟩ : CondSys).owner = none
    ∧ 3 ∈ (⟨0, none, [3], []⟩ : CondSys).waiters :=
  condition_wait_spec.1 ⟨0, some 3, [], []⟩ 3 ⟨0, none, [3], []⟩
    (CStep.waitEnter 3 ⟨0, some 3, [], []⟩ rfl)

/-- Claim C3: the `thread` lifecycle is Running → {Killed, Joined} with
the terminal state reached at most once: `kill` and `join` are no-ops on
a terminal thread, repeated `kill` or `join` is the same as one, and two
`join` calls complete the thread's function exactly once. -/
theorem thread_lifecycle_terminal :
    (∀ t, killT (killT t) = killT t)
    ∧ (∀ t, joinT (joinT t) = joinT t)
    ∧ (∀ t, t.state ≠ .Running → killT t = t ∧ joinT t = t)
    ∧ (∀ t, t.state = .Running →
        (joinT t).completions = t.completions + 1
        ∧ (joinT (joinT t)).completions = t.completions + 1) := by
  refine ⟨?_, ?_, ?_, ?_⟩ <;> intro t <;> rcases t with ⟨st, c⟩ <;> cases st <;>
    simp [killT, joinT]

/-- Witness for C3 on a concrete running thread: two joins complete its
function exactly once. -/
theorem thread_lifecycle_terminal_witness :
    (joinT { state := .Running, completions := 0 }).completions = 0 + 1
    ∧ (joinT (joinT { state := .Running, completions := 0 })).completions = 0 + 1 :=
  thread_lifecycle_terminal.2.2.2 { state := .Running, completions := 0 } rfl

/-- Claim C4: constructing a `thread` with a null function pointer fails
fast with `InvalidArgument` and no thread is created; a non-null function
pointer yields a running thread whose started unit of work calls exactly
that function on the supplied opaque argument. -/
theorem thread_ctor_null_check :
    (∀ d, thread_new none d = .error .InvalidArgument)
    ∧ (∀ fn d, thread_new (some fn) d
        = .ok { func := fn, arg := d, lifecycle := { state := .Running, completions := 0 } })
    ∧ (∀ fn d st, thread_new (some fn) d = Except.ok st →
        st.func = fn ∧ st.arg = d ∧ st.lifecycle.state = .Running ∧ threadCall st = fn d) := by
  refine ⟨fun d => rfl, fun fn d => rfl, ?_⟩
  intro fn d st h
  simp only [thread_new] at h
  injection h with h
  subst h
  exact ⟨rfl, rfl, rfl, rfl⟩

/-- Witness for C4 on a concrete constructor call with a non-null
function and a null data pointer. -/
theorem thread_ctor_null_check_witness :
    st0.func = (fun _ => (0 : Int)) ∧ st0.arg = Ptr.null
    ∧ st0.lifecycle.state = .Running ∧ threadCall st0 = (fun _ => (0 : Int)) Ptr.null :=
  thread_ctor_null_check.2.2 (fun _ => 0) Ptr.null st0 rfl

/-- Claim C5: the `thread` destructor is an implicit `join`: on a thread
still Running it blocks until the function completes and joins it; on a
thread already killed or joined it does not block and changes nothing. -/
theorem thread_dtor_implicit_join :
    (∀ t, threadDtor t = joinT t)
    ∧ (∀ t, t.state = .Running →
        threadDtorBlocks t = true ∧ (threadDtor t).state = .Joined
        ∧ (threadDtor t).completions = t.completions + 1)
    ∧ (∀ t, t.state ≠ .Running → threadDtorBlocks t = false ∧ threadDtor t = t) := by
  refine ⟨fun t => rfl, ?_, ?_⟩ <;> intro t <;> rcases t with ⟨st, c⟩ <;> cases st <;>
    simp [threadDtor, threadDtorBlocks, joinT]

/-- Witness for C5 on a concrete running thread: its destructor blocks
and joins it. -/
theorem thread_dtor_implicit_join_witness :
    threadDtorBlocks { state := .Running, completions := 0 } = true
    ∧ (threadDtor { state := .Running, completions := 0 }).state = .Joined
    ∧ (threadDtor { state := .Running, completions := 0 }).completions = 0 + 1 :=
  thread_dtor_implicit_join.2.1 { state := .Running, completions := 0 } rfl

/-- Claim C6: `wait_timeout` returns a single boolean: `true` exactly when
signalled before the timeout, `false` both on timeout expiry and on a
genuine platform error, and no decoding function can recover the cause
from that boolean. -/
theorem wait_timeout_collapsed :
    (∀ m t, wait_timeout m t .signaled = true)
    ∧ (∀ m t, wait_timeout m t .timedOut = false ∧ wait_timeout m t .sdlFailed = false)
    ∧ (∀ m t, ∀ g : Bool → SDLWaitOutcome, ¬ ∀ r, g (wait_timeout m t r) = r) := by
  refine ⟨fun m t => rfl, fun m t => ⟨rfl, rfl⟩, ?_⟩
  intro m t g h
  have h1 := h .timedOut
  have h2 := h .sdlFailed
  simp only [wait_timeout] at h1 h2
  rw [h1] at h2
  cases h2

/-- Witness for C6 at a concrete call: a signalled outcome yields `true`
and timeout and platform failure both yield `false`. -/
theorem wait_timeout_collapsed_witness :
    wait_timeout (mutex_new 0) 100 .timedOut = false
    ∧ wait_timeout (mutex_new 0) 100 .sdlFailed = false :=
  wait_timeout_collapsed.2.1 (mutex_new 0) 100

/-- Claim C7: `notify_one` on a condition variable with no waiter leaves
the entire state unchanged (no signal is banked); with waiters it moves
exactly one of them to the woken set; and in every case it leaves the
mutex owner (and the native handle) untouched — it never releases any
mutex. -/
theorem notify_one_spec :
    (∀ s, s.waiters = [] → notify_one s = s)
    ∧ (∀ s t rest, s.waiters = t :: rest →
        (notify_one s).waiters = rest ∧ (notify_one s).woken = t :: s.woken)
    ∧ (∀ s, (notify_one s).owner = s.owner) := by
  refine ⟨?_, ?_, fun s => (notify_one_frame s).1⟩
  · intro s h
    rcases s with ⟨c, o, w, wo⟩
    cases h
    rfl
  · intro s t rest h
    rcases s with ⟨c, o, w, wo⟩
    cases h
    exact ⟨rfl, rfl⟩

/-- Witness for C7 at concrete states: with no waiter `notify_one` is the
identity, and with waiters 4 and 5 it wakes exactly waiter 4. -/
theorem notify_one_spec_witness :
    notify_one ⟨0, some 9, [], []⟩ = (⟨0, some 9, [], []⟩ : CondSys)
    ∧ (notify_one ⟨0, none, [4, 5], []⟩).waiters = [5]
    ∧ (notify_one ⟨0, none, [4, 5], []⟩).woken = [4] :=
  ⟨notify_one_spec.1 ⟨0, some 9, [], []⟩ rfl,
   notify_one_spec.2.1 ⟨0, none, [4, 5], []⟩ 4 [5] rfl⟩

/-- Claim C8: a freshly constructed `mutex` is unlocked and ready for
use; its destructor's unlocked precondition is documented but not
enforced (the destructor runs unconditionally, even on a locked mutex);
and the class declares no public `lock` or `unlock` member — its only
public members are the constructor and the destructor. -/
theorem mutex_contract :
    (∀ h, (mutex_new h).owner = none ∧ (mutex_new h).activeLocks = [])
    ∧ mutex_dtor_pre = (fun s => s.owner = none)
    ∧ (∀ s, mutex_dtor s = ())
    ∧ (¬ mutex_dtor_pre { m_ := 0, owner := some 1, activeLocks := [1] }
        ∧ mutex_dtor { m_ := 0, owner := some 1, activeLocks := [1] } = ())
    ∧ "lock" ∉ mutexPublicMembers ∧ "unlock" ∉ mutexPublicMembers := by
  refine ⟨fun h => ⟨rfl, rfl⟩, rfl, fun s => rfl, ⟨?_, rfl⟩, ?_, ?_⟩
  · intro h
    simp [mutex_dtor_pre] at h
  · simp [mutexPublicMembers]
  · simp [mutexPublicMembers]

/-- Witness for C8 at a concrete handle: a mutex constructed on handle 3
is unlocked with no active lock. -/
theorem mutex_contract_witness :
    (mutex_new 3).owner = none ∧ (mutex_new 3).activeLocks = [] :=
  mutex_contract.1 3

/-- Claim C9: the native handles are fixed at construction (`const`
members in the header): no transition of the lock system changes `m_`,
no transition of the condition system changes `cond_`, and neither
`notify_one` nor `notify_all` changes `cond_`. -/
theorem native_handles_fixed :
    (∀ s e s', LStep s e s' → s'.m_ = s.m_)
    ∧ (∀ s e s', CStep s e s' → s'.cond_ = s.cond_)
    ∧ (∀ s, (notify_one s).cond_ = s.cond_ ∧ (notify_all s).cond_ = s.cond_) := by
  refine ⟨?_, ?_, fun s => ⟨(notify_one_frame s).2, rfl⟩⟩
  · intro s e s' hstep
    cases hstep <;> rfl
  · intro s e s' hstep
    cases hstep with
    | notifyOne s => exact (notify_one_frame s).2
    | _ => rfl

/-- Witness for C9 at a concrete transition: thread 2 acquiring the lock
on the mutex with handle 9 leaves the handle at 9. -/
theorem native_handles_fixed_witness :
    ({ m_ := 9, owner := some 2, activeLocks := [2] } : LockSys).m_ = (mutex_new 9).m_ :=
  native_handles_fixed.1 (mutex_new 9) (.acquire 2)
    { m_ := 9, owner := some 2, activeLocks := [2] }
    (LStep.acquire 2 (mutex_new 9) rfl)

/-- Claim C10: the constructor's `data` argument defaults to the null
pointer, so a thread constructed from a function alone hands that
function exactly the null pointer, unmodified. -/
theorem thread_data_defaults_null :
    thread_data_default = Ptr.null
    ∧ (∀ f, thread_new1 f = thread_new f Ptr.null)
    ∧ (∀ fn st, thread_new1 (some fn) = Except.ok st →
        st.arg = Ptr.null ∧ threadCall st = fn Ptr.null) := by
  refine ⟨rfl, fun f => rfl, ?_⟩
  intro fn st h
  simp only [thread_new1, thread_new, thread_data_default] at h
  injection h with h
  subst h
  exact ⟨rfl, rfl⟩

/-- Witness for C10 on a concrete one-argument constructor call: the
started thread's argument is the null pointer. -/
theorem thread_data_defaults_null_witness :
    st1.arg = Ptr.null ∧ threadCall st1 = (fun _ => (1 : Int)) Ptr.null :=
  thread_data_defaults_null.2.2 (fun _ => 1) st1 rfl

end threading
